import Mathlib

/-
Formal model of the vibe-inventory single-page application and its
notify-low-stock serverless function, embedded shallowly in Lean.

Sources modelled:
* src/src/App.jsx    -- client: auth helpers, inventory, consumables,
                        ConsumablesPage filtering, optimistic add/rollback
* src/unnamed/part_001 -- the notify-low-stock edge function (request handler)

JavaScript strings are modelled as Lean `String` (lists of characters);
numbers as `Int`; `null`/`undefined`-able values as `Option`; database
tables as lists of row structures; network and database failures as
explicit boolean fields of an environment record, because the source
branches on those errors.  JS `toLowerCase` is modelled on the ASCII
range (the only characters the pipelines below can keep are ASCII).
-/

namespace VibeInventory

/-- JS whitespace class (the regex class backslash-s and the set `trim`
strips): ASCII whitespace, NBSP, Unicode space separators, line and
paragraph separators, and the BOM. -/
def isJsWhitespace (c : Char) : Bool :=
  c = ' ' || c = '\t' || c = '\n' || c.val = 11 || c.val = 12 || c = '\r' ||
  c.val = 160 || c.val = 0x1680 || (decide (0x2000 ≤ c.val) && decide (c.val ≤ 0x200a)) ||
  c.val = 0x2028 || c.val = 0x2029 || c.val = 0x202f || c.val = 0x205f ||
  c.val = 0x3000 || c.val = 0xfeff

/-- JS `String.prototype.trim`: strip leading and trailing whitespace. -/
def jsTrim (l : List Char) : List Char :=
  ((l.dropWhile isJsWhitespace).reverse.dropWhile isJsWhitespace).reverse

/-- JS `String.prototype.toLowerCase`, on the ASCII range. -/
def jsToLowerChar (c : Char) : Char :=
  if 'A' ≤ c && c ≤ 'Z' then Char.ofNat (c.toNat + 32) else c

/-- Lowercase an entire string (JS `toLowerCase`). -/
def jsToLowerStr (s : String) : String :=
  (s.toList.map jsToLowerChar).asString

/-- `String(s).trim()` as used on field values in App.jsx. -/
def jsTrimStr (s : String) : String :=
  (jsTrim s.toList).asString

/-- The character class [a-z0-9._-] kept by `usernameToAuthEmail`. -/
def allowedLocalChar (c : Char) : Bool :=
  (decide ('a' ≤ c) && decide (c ≤ 'z')) ||
  (decide ('0' ≤ c) && decide (c ≤ '9')) ||
  c = '.' || c = '_' || c = '-'

/-- JS `a || b` for strings: the empty string is falsy. -/
def jsOrStr (a b : String) : String :=
  if a = "" then b else a

/-- JS `a || b` where `a` may be null/undefined (`none`) or a string. -/
def jsOrOpt (a : Option String) (b : String) : String :=
  match a with
  | none => b
  | some s => if s = "" then b else s

/-- JS `s.endsWith(t)`. -/
def jsEndsWith (s t : String) : Bool :=
  t.toList.isSuffixOf s.toList

/-- JS `s.includes(c)` for a single-character needle. -/
def jsIncludesChar (s : String) (c : Char) : Bool :=
  s.toList.contains c

/-- JS `s.startsWith(t)`. -/
def jsStartsWith (s t : String) : Bool :=
  t.toList.isPrefixOf s.toList

/-- App.jsx `normalizeUsername`: trim, lowercase, remove all whitespace. -/
def normalizeUsername (u : String) : String :=
  (((jsTrim u.toList).map jsToLowerChar).filter (fun c => !(isJsWhitespace c))).asString

/-- App.jsx `usernameToAuthEmail`: normalize, delete characters outside
[a-z0-9._-], then append the synthetic domain (empty input gives ""). -/
def usernameToAuthEmail (usernameRaw : String) : String :=
  let username := normalizeUsername usernameRaw
  let localPart := (username.toList.filter allowedLocalChar).asString
  if localPart = "" then "" else localPart ++ "@vibe-user.example.com"

/-- App.jsx `ADMIN_USERNAMES` (a Set with the single element "admin"). -/
def ADMIN_USERNAMES : List String := ["admin"]

/-- App.jsx `ADMIN_EMAILS` (a Set with a single synthetic admin email). -/
def ADMIN_EMAILS : List String := ["admin@vibe-user.example.com"]

/-- The parts of a Supabase auth user that `isAdminIdentity` reads:
`user.email`, `user.user_metadata.username`, `user.user_metadata.role`. -/
structure AuthUser where
  email : Option String
  metaUsername : Option String
  metaRole : Option String
deriving DecidableEq

/-- App.jsx `isAdminIdentity`: admin iff the metadata role lowercases to
"admin", or the normalized username (metadata, falling back to the hint)
is in ADMIN_USERNAMES, or the lowercased email is in ADMIN_EMAILS. -/
def isAdminIdentity (user : AuthUser) (usernameHint : String) : Bool :=
  let username := normalizeUsername (jsOrOpt user.metaUsername usernameHint)
  let email := jsToLowerStr (jsOrOpt user.email "")
  let role := jsToLowerStr (jsOrOpt user.metaRole "")
  role == "admin" || ADMIN_USERNAMES.contains username || ADMIN_EMAILS.contains email

/-- The local part exactly as the spec sentence for C7 phrases it: the
input trimmed, lowercased, with all whitespace removed, and every
character outside [a-z0-9._-] deleted. -/
def specLocalPart (s : String) : String :=
  ((((jsTrim s.toList).map jsToLowerChar).filter
      (fun c => !(isJsWhitespace c))).filter allowedLocalChar).asString

/-- C7 (confirmed): `usernameToAuthEmail` returns the spec-described
local part followed by "@vibe-user.example.com", or the empty string when
that local part is empty. -/
theorem usernameToAuthEmail_matches_spec (s : String) :
    usernameToAuthEmail s =
      if specLocalPart s = "" then "" else specLocalPart s ++ "@vibe-user.example.com" :=
  rfl

/-- C8 (confirmed): `isAdminIdentity` returns true exactly when the
lowercased metadata role is "admin", or the normalized username (metadata
username falling back to the hint) is "admin", or the lowercased email is
"admin@vibe-user.example.com". -/
theorem isAdminIdentity_iff (user : AuthUser) (hint : String) :
    isAdminIdentity user hint = true ↔
      (jsToLowerStr (jsOrOpt user.metaRole "") = "admin" ∨
       normalizeUsername (jsOrOpt user.metaUsername hint) = "admin" ∨
       jsToLowerStr (jsOrOpt user.email "") = "admin@vibe-user.example.com") := by
  simp [isAdminIdentity, ADMIN_USERNAMES, ADMIN_EMAILS, List.contains, or_assoc]

/-- A consumables row as mapped by App.jsx `loadConsumablesFromDb`. -/
structure Consumable where
  id : String
  name : String
  category : String
  unit : String
  location : String
  onHand : Int
  minLevel : Int
  changedByName : String
  changedByUsername : String
deriving DecidableEq

/-- The payload App.jsx builds for the notify-low-stock function. -/
structure NotifyPayload where
  consumable_id : String
  name : String
  on_hand : Int
  min_level : Int
  location : String
  unit : String
  updated_by_name : String
deriving DecidableEq

/-- External outcomes `adjustConsumable` branches on: whether the
consumables_items update succeeded, and whether a session access token
could be retrieved. -/
structure AdjustEnv where
  updateOk : Bool
  sessionOk : Bool
deriving DecidableEq

/-- Observable effects of one `adjustConsumable` call: the on_hand value
passed to the store update (if one was issued), whether the
notify-low-stock function was invoked and with which payload, and the
toast shown. -/
structure AdjustResult where
  written : Option Int
  notified : Bool
  notifyPayload : Option NotifyPayload
  toast : Option String
deriving DecidableEq

/-- App.jsx `adjustConsumable`: find the row, clamp the new on-hand count
at 0, issue the update, and invoke notify-low-stock exactly on a
low-stock crossing by an admin with a live session.  Toast strings keep
the source's prefixes (interpolated suffixes elided). -/
def adjustConsumable (consumables : List Consumable) (id : String) (delta : Int)
    (isAdmin : Bool) (currentName currentUser : String) (env : AdjustEnv) : AdjustResult :=
  match consumables.find? (fun c => c.id == id) with
  | none => ⟨none, false, none, none⟩
  | some current =>
    let nextOnHand : Int := max 0 (current.onHand + delta)
    let currentOnHand : Int := current.onHand
    let minLevel : Int := current.minLevel
    if env.updateOk = false then
      ⟨some nextOnHand, false, none, some "Consumable update error: "⟩
    else
      let wasAboveMin : Bool := decide (currentOnHand > minLevel)
      let isNowBelowMin : Bool := decide (nextOnHand ≤ minLevel)
      let gateToast : Option String :=
        if delta < 0 ∧ isAdmin = false then
          some "No email trigger: you are not admin."
        else if delta < 0 ∧ wasAboveMin = false then
          some "No email trigger: item was already at/below min level."
        else if delta < 0 ∧ wasAboveMin = true ∧ isNowBelowMin = false then
          some "No email trigger: stock is still above min "
        else none
      if wasAboveMin && isNowBelowMin && isAdmin then
        if env.sessionOk = false then
          ⟨some nextOnHand, false, none,
            some "Low-stock email failed: session expired. Please log in again."⟩
        else
          ⟨some nextOnHand, true,
            some ⟨id, jsOrStr current.name "Unknown", nextOnHand, minLevel,
                  jsOrStr current.location "Unknown", jsOrStr current.unit "pcs",
                  jsOrStr (jsOrStr currentName currentUser) "Unknown"⟩,
            gateToast⟩
      else
        ⟨some nextOnHand, false, none, gateToast⟩

/-- C9 (confirmed): whenever `adjustConsumable` finds the consumable, the
on_hand value it writes to the store is max(0, current onHand + delta) --
never negative. -/
theorem adjustConsumable_written_clamped (consumables : List Consumable) (id : String)
    (delta : Int) (isAdmin : Bool) (currentName currentUser : String) (env : AdjustEnv)
    (current : Consumable)
    (hfind : consumables.find? (fun c => c.id == id) = some current) :
    (adjustConsumable consumables id delta isAdmin currentName currentUser env).written =
      some (max 0 (current.onHand + delta)) := by
  unfold adjustConsumable
  rw [hfind]
  dsimp only
  split <;> [rfl; skip]
  split <;> [split <;> rfl; rfl]

/-- C9 witness: a concrete run (onHand 1, delta -5) writes max 0 (1-5) = 0. -/
theorem adjustConsumable_written_clamped_witness :
    (adjustConsumable [⟨"c1", "Gloves", "", "pcs", "Clancy", 1, 3, "", ""⟩]
        "c1" (-5) true "Ann" "ann" ⟨true, true⟩).written = some (max 0 (1 + (-5))) :=
  adjustConsumable_written_clamped
    [⟨"c1", "Gloves", "", "pcs", "Clancy", 1, 3, "", ""⟩]
    "c1" (-5) true "Ann" "ann" ⟨true, true⟩
    ⟨"c1", "Gloves", "", "pcs", "Clancy", 1, 3, "", ""⟩ (by decide)

/-- C1 counterexample: a low-stock crossing (5 above min 3, adjusted to 2,
at or below 3) performed by a NON-admin, with the update and session both
fine, does not invoke notify-low-stock, refuting the claimed iff. -/
theorem adjustConsumable_crossing_without_admin_no_notify :
    (3 : Int) < 5 ∧ max 0 ((5 : Int) + (-3)) ≤ 3 ∧
    (adjustConsumable [⟨"c1", "Gloves", "", "pcs", "Clancy", 5, 3, "", ""⟩]
        "c1" (-3) false "Bob" "bob" ⟨true, true⟩).notified = false := by
  decide

/-- C1 (corrected): when the store update succeeds and a session token is
available, `adjustConsumable` invokes notify-low-stock if and only if the
on-hand count before was strictly above the minimum, the clamped on-hand
count after is at or below the minimum, AND the current user is an admin. -/
theorem adjustConsumable_notified_iff (consumables : List Consumable) (id : String)
    (delta : Int) (isAdmin : Bool) (currentName currentUser : String) (env : AdjustEnv)
    (current : Consumable)
    (hfind : consumables.find? (fun c => c.id == id) = some current)
    (hupd : env.updateOk = true) (hsess : env.sessionOk = true) :
    (adjustConsumable consumables id delta isAdmin currentName currentUser env).notified = true ↔
      (current.minLevel < current.onHand ∧
       max 0 (current.onHand + delta) ≤ current.minLevel ∧
       isAdmin = true) := by
  unfold adjustConsumable
  rw [hfind]
  dsimp only
  rw [hupd, hsess]
  by_cases h1 : current.minLevel < current.onHand <;>
    by_cases h2 : max 0 (current.onHand + delta) ≤ current.minLevel <;>
      cases isAdmin <;>
        simp [h1, h2]

/-- C1 amended-claim witness: an admin crossing from 5 above min 3 down
to 2 does trigger the notification. -/
theorem adjustConsumable_notified_iff_witness :
    (adjustConsumable [⟨"c1", "Gloves", "", "pcs", "Clancy", 5, 3, "", ""⟩]
        "c1" (-3) true "Ann" "ann" ⟨true, true⟩).notified = true :=
  (adjustConsumable_notified_iff
    [⟨"c1", "Gloves", "", "pcs", "Clancy", 5, 3, "", ""⟩]
    "c1" (-3) true "Ann" "ann" ⟨true, true⟩
    ⟨"c1", "Gloves", "", "pcs", "Clancy", 5, 3, "", ""⟩
    (by decide) rfl rfl).mpr (by decide)

/-- ConsumablesPage's `filteredConsumables` memo: an empty location
filter (falsy string) yields the empty list, otherwise the rows whose
location (null coalesced to "") equals the filter. -/
def filteredConsumables (consumables : List Consumable) (locationFilter : String) :
    List Consumable :=
  if locationFilter ≠ "" then
    consumables.filter (fun c => jsOrStr c.location "" == locationFilter)
  else []

/-- C10 (confirmed): with no location chosen the displayed consumables
list is empty whatever the data; with a location chosen it holds exactly
the consumables whose location equals the chosen one. -/
theorem filteredConsumables_spec (consumables : List Consumable) :
    filteredConsumables consumables "" = [] ∧
    ∀ loc : String, loc ≠ "" → ∀ c : Consumable,
      (c ∈ filteredConsumables consumables loc ↔ c ∈ consumables ∧ c.location = loc) := by
  constructor
  · simp [filteredConsumables]
  · intro loc hloc c
    have hcl : jsOrStr c.location "" = c.location := by
      unfold jsOrStr
      split <;> simp_all
    simp [filteredConsumables, hloc, List.mem_filter, hcl]

/-- C10 witness: with location "Clancy" chosen, a Clancy row is shown. -/
theorem filteredConsumables_spec_witness :
    ⟨"c1", "Gloves", "", "pcs", "Clancy", 5, 3, "", ""⟩ ∈
      filteredConsumables [⟨"c1", "Gloves", "", "pcs", "Clancy", 5, 3, "", ""⟩] "Clancy" :=
  ((filteredConsumables_spec [⟨"c1", "Gloves", "", "pcs", "Clancy", 5, 3, "", ""⟩]).2
    "Clancy" (by decide) ⟨"c1", "Gloves", "", "pcs", "Clancy", 5, 3, "", ""⟩).mpr
    (by constructor <;> [simp; rfl])

/-- The JSON payload of a notify-low-stock request (part_001). -/
structure LowStockPayload where
  consumable_id : String
  name : String
  on_hand : Int
  min_level : Int
  location : String
  unit : String
  updated_by_name : String
deriving DecidableEq

/-- A notification_logs row as the dedup query reads it: the consumable,
the status, and the sent_at timestamp (milliseconds, any fixed unit). -/
structure NotifLogRow where
  consumable_id : String
  status : String
  sent_at : Int
deriving DecidableEq

/-- The row the function inserts into notification_logs. -/
structure NotifLogInsert where
  consumable_id : String
  notification_type : String
  status : String
  sent_to_emails : List String
  trigger_value : Int
  error_message : Option String
deriving DecidableEq

/-- A user_profiles row as the recipients query reads it. -/
structure UserProfileRow where
  user_id : String
  email : String
  real_email : Option String
deriving DecidableEq

/-- External outcomes the function branches on: the BREVO_API_KEY secret
being set, the two database reads erroring, and the Brevo API call
succeeding (with its HTTP status on failure). -/
structure ServeEnv where
  brevoKeyPresent : Bool
  checkError : Bool
  adminError : Bool
  brevoOk : Bool
  brevoStatus : Nat
deriving DecidableEq

/-- Observable outcome of one request: HTTP status, body fields, the
recipient list of the Brevo API call if one was made, and the
notification_logs row inserted if any. -/
structure ServeResult where
  status : Nat
  success : Bool
  message : Option String
  error : Option String
  emailRequest : Option (List String)
  inserted : Option NotifLogInsert
deriving DecidableEq

/-- The dedup query: does notification_logs hold a row for this
consumable with status "sent" and sent_at at or after today's midnight? -/
def sameDaySentExists (logs : List NotifLogRow) (cid : String) (midnight : Int) : Bool :=
  logs.any (fun r => r.consumable_id == cid && decide (midnight ≤ r.sent_at) && r.status == "sent")

/-- The recipients query: all user_profiles rows whose real_email is not
null (the source's comment says "admin users" but nothing filters on an
admin role). -/
def adminUsersQuery (profiles : List UserProfileRow) : List UserProfileRow :=
  profiles.filter (fun p => p.real_email.isSome)

/-- The recipient filter: keep real_email values that are truthy, do not
end in "@vibe-user.example.com", and contain an "@". -/
def realEmailsOf (profiles : List UserProfileRow) : List String :=
  ((adminUsersQuery profiles).map (fun u => (u.real_email).getD "")).filter
    (fun email =>
      (email != "") && !(jsEndsWith email "@vibe-user.example.com") && jsIncludesChar email '@')

/-- part_001 `serve`: the notify-low-stock request handler.  `midnight`
is the timestamp of the current day's midnight; `logs` and `profiles`
are the database tables the two queries read. -/
def serve (method : String) (payload : LowStockPayload) (logs : List NotifLogRow)
    (profiles : List UserProfileRow) (midnight : Int) (env : ServeEnv) : ServeResult :=
  if method == "OPTIONS" then ⟨200, false, some "ok", none, none, none⟩
  else if method != "POST" then ⟨405, false, none, some "Method not allowed", none, none⟩
  else if env.brevoKeyPresent = false then
    ⟨500, false, none, some "Missing BREVO_API_KEY in Edge Function secrets", none, none⟩
  else if payload.consumable_id == "" || payload.name == "" then
    ⟨400, false, none, some "Missing required fields", none, none⟩
  else
    let recentHit : Bool :=
      !env.checkError && sameDaySentExists logs payload.consumable_id midnight
    if recentHit then
      ⟨200, true, some "Notification already sent today for this item", none, none, none⟩
    else if env.adminError then
      ⟨500, false, none, some "Failed to fetch admin users", none, none⟩
    else if (adminUsersQuery profiles).isEmpty then
      ⟨400, false, none, some "No admin users with email configured", none,
        some ⟨payload.consumable_id, "low_stock", "failed", [], payload.on_hand,
              some "No admin users found"⟩⟩
    else
      let realEmails := realEmailsOf profiles
      if realEmails.isEmpty then
        ⟨400, false, none, some "No admin users with real email addresses configured", none,
          some ⟨payload.consumable_id, "low_stock", "failed", [], payload.on_hand,
                some "No admin users with real email addresses"⟩⟩
      else if env.brevoOk = false then
        ⟨500, false, none, some ("Brevo error: " ++ toString env.brevoStatus),
          some realEmails,
          some ⟨payload.consumable_id, "low_stock", "failed", realEmails, payload.on_hand,
                some ("Brevo error: " ++ toString env.brevoStatus)⟩⟩
      else
        ⟨200, true,
          some ("Low stock notification sent to " ++ toString realEmails.length ++ " admin(s)"),
          none, some realEmails,
          some ⟨payload.consumable_id, "low_stock", "sent", realEmails, payload.on_hand, none⟩⟩

/-- C2 counterexample: when the dedup query errors (its result is null
and the source only logs the error and continues), a request whose
consumable already has a same-day "sent" row still calls the email API
and inserts a fresh log row, instead of returning the dedup response. -/
theorem serve_dedup_bypassed_on_check_error :
    sameDaySentExists [⟨"c1", "sent", 100⟩] "c1" 50 = true ∧
    (serve "POST" ⟨"c1", "Gloves", 2, 3, "Clancy", "pcs", "Ann"⟩
        [⟨"c1", "sent", 100⟩]
        [⟨"u1", "admin@vibe-user.example.com", some "boss@gmail.com"⟩]
        50 ⟨true, true, false, true, 0⟩).emailRequest = some ["boss@gmail.com"] ∧
    (serve "POST" ⟨"c1", "Gloves", 2, 3, "Clancy", "pcs", "Ann"⟩
        [⟨"c1", "sent", 100⟩]
        [⟨"u1", "admin@vibe-user.example.com", some "boss@gmail.com"⟩]
        50 ⟨true, true, false, true, 0⟩).message ≠
      some "Notification already sent today for this item" := by
  decide

/-- C2 (corrected): provided the dedup query itself does not error, a
valid POST request whose consumable already has a notification_logs row
with status "sent" at or after midnight gets the 200 response with
message "Notification already sent today for this item", with no email
API call and no inserted log row. -/
theorem serve_dedup_short_circuits (payload : LowStockPayload) (logs : List NotifLogRow)
    (profiles : List UserProfileRow) (midnight : Int) (env : ServeEnv)
    (hkey : env.brevoKeyPresent = true) (hcheck : env.checkError = false)
    (hcid : payload.consumable_id ≠ "") (hname : payload.name ≠ "")
    (hhit : sameDaySentExists logs payload.consumable_id midnight = true) :
    serve "POST" payload logs profiles midnight env =
      ⟨200, true, some "Notification already sent today for this item", none, none, none⟩ := by
  have hc : (payload.consumable_id == "") = false := beq_eq_false_iff_ne.mpr hcid
  have hn : (payload.name == "") = false := beq_eq_false_iff_ne.mpr hname
  simp [serve, hkey, hcheck, hhit, hc, hn]

/-- C2 amended-claim witness: a concrete same-day duplicate request gets
the dedup response. -/
theorem serve_dedup_short_circuits_witness :
    serve "POST" ⟨"c1", "Gloves", 2, 3, "Clancy", "pcs", "Ann"⟩
        [⟨"c1", "sent", 100⟩]
        [⟨"u1", "admin@vibe-user.example.com", some "boss@gmail.com"⟩]
        50 ⟨true, false, false, true, 0⟩ =
      ⟨200, true, some "Notification already sent today for this item", none, none, none⟩ :=
  serve_dedup_short_circuits ⟨"c1", "Gloves", 2, 3, "Clancy", "pcs", "Ann"⟩
    [⟨"c1", "sent", 100⟩]
    [⟨"u1", "admin@vibe-user.example.com", some "boss@gmail.com"⟩]
    50 ⟨true, false, false, true, 0⟩
    rfl rfl (by decide) (by decide) (by decide)

/-- C3 (code bug): the recipients query takes every user_profiles row
with a non-null real email -- it never filters on an admin role, so a
non-admin user ("bob", not admin per `isAdminIdentity`) with a real email
receives the alert alongside the admin. -/
theorem serve_emails_non_admin_users :
    isAdminIdentity ⟨some "bob@vibe-user.example.com", some "bob", none⟩ "" = false ∧
    realEmailsOf
        [⟨"u1", "admin@vibe-user.example.com", some "boss@gmail.com"⟩,
         ⟨"u2", "bob@vibe-user.example.com", some "bob@gmail.com"⟩] =
      ["boss@gmail.com", "bob@gmail.com"] ∧
    (serve "POST" ⟨"c1", "Gloves", 2, 3, "Clancy", "pcs", "Ann"⟩ []
        [⟨"u1", "admin@vibe-user.example.com", some "boss@gmail.com"⟩,
         ⟨"u2", "bob@vibe-user.example.com", some "bob@gmail.com"⟩]
        0 ⟨true, false, false, true, 0⟩).emailRequest =
      some ["boss@gmail.com", "bob@gmail.com"] := by
  decide

/-- C5 counterexample: when the user_profiles query errors, a request
that passed the dedup check returns 500 without inserting any
notification_logs row -- the outcome is not recorded. -/
theorem serve_no_log_on_admin_query_error :
    ((!(false : Bool)) && sameDaySentExists [] "c1" 0) = false ∧
    (serve "POST" ⟨"c1", "Gloves", 2, 3, "Clancy", "pcs", "Ann"⟩ [] [] 0
        ⟨true, false, true, true, 0⟩).inserted = none ∧
    (serve "POST" ⟨"c1", "Gloves", 2, 3, "Clancy", "pcs", "Ann"⟩ [] [] 0
        ⟨true, false, true, true, 0⟩).status = 500 := by
  decide

/-- C5 (corrected): provided the user_profiles query does not error,
every valid POST request that passes the same-day duplicate check inserts
a notification_logs row for the consumable: a "sent" row carrying the
recipient list and the triggering on-hand value when the email API call
succeeds, otherwise a "failed" row with an error message. -/
theorem serve_records_outcome (payload : LowStockPayload) (logs : List NotifLogRow)
    (profiles : List UserProfileRow) (midnight : Int) (env : ServeEnv)
    (hkey : env.brevoKeyPresent = true) (hadmin : env.adminError = false)
    (hcid : payload.consumable_id ≠ "") (hname : payload.name ≠ "")
    (hmiss : (!env.checkError && sameDaySentExists logs payload.consumable_id midnight) = false) :
    ∃ log : NotifLogInsert,
      (serve "POST" payload logs profiles midnight env).inserted = some log ∧
      log.consumable_id = payload.consumable_id ∧
      log.notification_type = "low_stock" ∧
      log.trigger_value = payload.on_hand ∧
      ((env.brevoOk = true ∧ realEmailsOf profiles ≠ []) →
        (log.status = "sent" ∧ log.sent_to_emails = realEmailsOf profiles ∧
         log.error_message = none)) ∧
      (¬(env.brevoOk = true ∧ realEmailsOf profiles ≠ []) →
        (log.status = "failed" ∧ log.error_message ≠ none)) := by
  have hc : (payload.consumable_id == "") = false := beq_eq_false_iff_ne.mpr hcid
  have hn : (payload.name == "") = false := beq_eq_false_iff_ne.mpr hname
  by_cases hA : (adminUsersQuery profiles).isEmpty
  · have hre : realEmailsOf profiles = [] := by
      simp [realEmailsOf, List.isEmpty_iff.mp hA]
    exact ⟨⟨payload.consumable_id, "low_stock", "failed", [], payload.on_hand,
        some "No admin users found"⟩,
      by simp [serve, hkey, hadmin, hmiss, hc, hn, hA],
      rfl, rfl, rfl,
      fun hsent => absurd hre hsent.2,
      fun _ => ⟨rfl, by simp⟩⟩
  · by_cases hR : (realEmailsOf profiles).isEmpty
    · have hre : realEmailsOf profiles = [] := List.isEmpty_iff.mp hR
      exact ⟨⟨payload.consumable_id, "low_stock", "failed", [], payload.on_hand,
          some "No admin users with real email addresses"⟩,
        by simp [serve, hkey, hadmin, hmiss, hc, hn, hA, hR],
        rfl, rfl, rfl,
        fun hsent => absurd hre hsent.2,
        fun _ => ⟨rfl, by simp⟩⟩
    · have hne : realEmailsOf profiles ≠ [] := by
        simpa [List.isEmpty_iff] using hR
      by_cases hB : env.brevoOk
      · exact ⟨⟨payload.consumable_id, "low_stock", "sent", realEmailsOf profiles,
            payload.on_hand, none⟩,
          by simp [serve, hkey, hadmin, hmiss, hc, hn, hA, hR, hB],
          rfl, rfl, rfl,
          fun _ => ⟨rfl, rfl, rfl⟩,
          fun hcon => absurd ⟨hB, hne⟩ hcon⟩
      · exact ⟨⟨payload.consumable_id, "low_stock", "failed", realEmailsOf profiles,
            payload.on_hand, some ("Brevo error: " ++ toString env.brevoStatus)⟩,
          by simp [serve, hkey, hadmin, hmiss, hc, hn, hA, hR, hB],
          rfl, rfl, rfl,
          fun hsent => absurd hsent.1 hB,
          fun _ => ⟨rfl, by simp⟩⟩

/-- C5 amended-claim witness: a concrete successful send records a "sent"
row with the recipient list and the triggering value. -/
theorem serve_records_outcome_witness :
    ∃ log : NotifLogInsert,
      (serve "POST" ⟨"c1", "Gloves", 2, 3, "Clancy", "pcs", "Ann"⟩ []
          [⟨"u1", "admin@vibe-user.example.com", some "boss@gmail.com"⟩]
          0 ⟨true, false, false, true, 0⟩).inserted = some log ∧
      log.consumable_id = "c1" ∧
      log.notification_type = "low_stock" ∧
      log.trigger_value = 2 ∧
      (((true : Bool) = true ∧
        realEmailsOf [⟨"u1", "admin@vibe-user.example.com", some "boss@gmail.com"⟩] ≠ []) →
        (log.status = "sent" ∧
         log.sent_to_emails =
           realEmailsOf [⟨"u1", "admin@vibe-user.example.com", some "boss@gmail.com"⟩] ∧
         log.error_message = none)) ∧
      (¬((true : Bool) = true ∧
         realEmailsOf [⟨"u1", "admin@vibe-user.example.com", some "boss@gmail.com"⟩] ≠ []) →
        (log.status = "failed" ∧ log.error_message ≠ none)) :=
  serve_records_outcome ⟨"c1", "Gloves", 2, 3, "Clancy", "pcs", "Ann"⟩ []
    [⟨"u1", "admin@vibe-user.example.com", some "boss@gmail.com"⟩]
    0 ⟨true, false, false, true, 0⟩
    rfl rfl (by decide) (by decide) (by decide)

/-- The partial update object passed to `upsertItem`: a field is `some`
exactly when the corresponding key is present in the JS object. -/
structure ItemChange where
  id : Option String
  name : Option String
  tag : Option String
  location : Option String
  qty : Option Int
  note : Option String
  checked : Option Bool
deriving DecidableEq

/-- App.jsx `isCheckedOnlyUpdate` inside `upsertItem`: the partial change
contains "checked" and every key is "id" or "checked". -/
def isCheckedOnlyUpdate (p : ItemChange) : Bool :=
  p.checked.isSome && p.name.isNone && p.tag.isNone && p.location.isNone &&
    p.qty.isNone && p.note.isNone

/-- The patch `upsertItem` sends to the inventory_items update. -/
structure ItemDbPatch where
  item_name : Option String
  tag : Option String
  location : Option String
  qty : Option Int
  notes : Option String
  checked : Option Bool
  updated_by : String
deriving DecidableEq

/-- Observable effects of one `upsertItem` call: the toast shown and the
patch of the issued database update, if one was issued. -/
structure UpsertResult where
  toast : Option String
  dbUpdate : Option ItemDbPatch
deriving DecidableEq

/-- App.jsx `upsertItem`: non-admins may only flip `checked`; temporary
ids and expired sessions bail out with a toast; otherwise the trimmed
patch is sent to inventory_items.  `authOk` models `supabase.auth.getUser`
succeeding, `updateOk` the update call succeeding. -/
def upsertItem (isAdmin : Bool) (p : ItemChange) (authOk : Bool) (userId : String)
    (updateOk : Bool) : UpsertResult :=
  if !isAdmin && !(isCheckedOnlyUpdate p) then
    ⟨some "Only admin can edit item details.", none⟩
  else if (match p.id with | some s => jsStartsWith s "tmp_" | none => false) then
    ⟨some "Syncing item, please try again.", none⟩
  else if !authOk then
    ⟨some "Session expired. Please log in again.", none⟩
  else
    let patch : ItemDbPatch :=
      ⟨p.name.map jsTrimStr, p.tag.map jsTrimStr, p.location.map jsTrimStr,
       p.qty.map (fun q => if q = 0 then 1 else q), p.note.map jsTrimStr,
       p.checked, userId⟩
    if !updateOk then ⟨some "Update error: ", some patch⟩
    else ⟨some "Saved", some patch⟩

/-- C4 (confirmed): for a non-admin, a database update is issued only
when the partial change is a checked-only update, and any other partial
change yields the toast "Only admin can edit item details." with no
database write. -/
theorem upsertItem_non_admin_guard (p : ItemChange) (authOk : Bool) (userId : String)
    (updateOk : Bool) :
    ((upsertItem false p authOk userId updateOk).dbUpdate ≠ none →
      isCheckedOnlyUpdate p = true) ∧
    (isCheckedOnlyUpdate p = false →
      upsertItem false p authOk userId updateOk =
        ⟨some "Only admin can edit item details.", none⟩) := by
  by_cases h : isCheckedOnlyUpdate p
  · exact ⟨fun _ => h, fun hfalse => absurd h (by simp [hfalse])⟩
  · have hform : upsertItem false p authOk userId updateOk =
        ⟨some "Only admin can edit item details.", none⟩ := by
      simp [upsertItem, h]
    exact ⟨fun hdb => absurd (by simp [hform]) hdb, fun _ => hform⟩

/-- C4 witness: a non-admin trying to rename an item gets the admin-only
toast and no database write. -/
theorem upsertItem_non_admin_guard_witness :
    upsertItem false ⟨some "i1", some "New name", none, none, none, none, none⟩
        true "u1" true =
      ⟨some "Only admin can edit item details.", none⟩ :=
  (upsertItem_non_admin_guard ⟨some "i1", some "New name", none, none, none, none, none⟩
    true "u1" true).2 (by decide)

/-- An inventory item in the local optimistic state, with the fields App.jsx
builds for `optimisticItem`. -/
structure InventoryItem where
  id : String
  name : String
  tag : String
  location : String
  qty : Int
  checked : Bool
  note : String
  createdBy : String
  createdAt : Int
  updatedBy : String
  updatedAt : Int
deriving DecidableEq

/-- App.jsx `addItem`, optimistic step: prepend the new item. -/
def addItemStaged (items : List InventoryItem) (it : InventoryItem) : List InventoryItem :=
  it :: items

/-- App.jsx `addItem`, reconciliation: keep the staged list when the
server insert succeeds, otherwise drop every item with the generated id. -/
def addItemAfterInsert (items : List InventoryItem) (it : InventoryItem)
    (insertOk : Bool) : List InventoryItem :=
  if insertOk then addItemStaged items it
  else (addItemStaged items it).filter (fun x => x.id != it.id)

/-- C6 (confirmed): `addItem` first prepends the optimistic item, and on
server error the rollback removes exactly that item, restoring the prior
list -- provided the generated id is fresh, as `genUuid` provides. -/
theorem addItem_rolls_back_on_error (items : List InventoryItem) (it : InventoryItem)
    (hfresh : ∀ x ∈ items, x.id ≠ it.id) :
    addItemStaged items it = it :: items ∧
    addItemAfterInsert items it false = items := by
  refine ⟨rfl, ?_⟩
  unfold addItemAfterInsert addItemStaged
  simp only [if_neg (by simp : ¬(false = true)), List.filter_cons]
  rw [if_neg (by simp)]
  exact List.filter_eq_self.mpr (fun x hx => by simpa using hfresh x hx)

/-- C6 witness: rolling back a failed insert over a concrete one-item
list restores that list. -/
theorem addItem_rolls_back_on_error_witness :
    addItemAfterInsert [⟨"a", "Cart", "", "Clancy", 1, false, "", "u", 0, "u", 0⟩]
        ⟨"b", "Chair", "", "Clancy", 1, false, "", "u", 1, "u", 1⟩ false =
      [⟨"a", "Cart", "", "Clancy", 1, false, "", "u", 0, "u", 0⟩] :=
  (addItem_rolls_back_on_error
    [⟨"a", "Cart", "", "Clancy", 1, false, "", "u", 0, "u", 0⟩]
    ⟨"b", "Chair", "", "Clancy", 1, false, "", "u", 1, "u", 1⟩
    (by decide)).2

end VibeInventory
